import Mathlib

/-! Shallow embedding of the double-pendulum physics kernel of
src/components/Pendulum.tsx: the control-panel parameters, the simulation
state, the derivative function, the RK4 frame step, the reset action and the
pointer-interaction handlers, together with theorems settling the
specification's claims about them.  Every definition is translated from the
source file; real numbers stand for the source's floating-point numbers. -/

namespace ChaoticPendulum

/-- The control values the physics code reads (src/components/Pendulum.tsx,
lines 16-64), restricted to the fields used by the dynamics, the reset
button, the frame step and the interaction handlers. -/
structure Params where
  gravity : ℝ
  rod1Mass : ℝ
  rod2Mass : ℝ
  rod1Length : ℝ
  rod2Length : ℝ
  rod1MomentumBoost : ℝ
  simulationSpeed : ℝ
  initialTheta1Deg : ℝ
  initialTheta2Deg : ℝ
  initialOmega1 : ℝ
  rod2AttachmentPosition : ℝ
  baseHeight : ℝ
  supportHeight : ℝ

/-- The physics state vector u = [theta1, theta2, omega1, omega2]
(src/components/Pendulum.tsx, lines 66-72). -/
@[ext]
structure SimState where
  theta1 : ℝ
  theta2 : ℝ
  omega1 : ℝ
  omega2 : ℝ

/-- The record returned by calculateDerivatives
(src/components/Pendulum.tsx, lines 163-168). -/
structure Derivatives where
  dTheta1 : ℝ
  dTheta2 : ℝ
  dOmega1 : ℝ
  dOmega2 : ℝ

/-- denominator1 = (m1 + m2) * L1 - m2 * L1 * c * c with c = cos(t1 - t2)
(src/components/Pendulum.tsx, line 145). -/
noncomputable def denominator1 (p : Params) (t1 t2 : ℝ) : ℝ :=
  (p.rod1Mass + p.rod2Mass) * p.rod1Length -
    p.rod2Mass * p.rod1Length * Real.cos (t1 - t2) * Real.cos (t1 - t2)

/-- denominator2 = (L2 / L1) * denominator1
(src/components/Pendulum.tsx, line 146). -/
noncomputable def denominator2 (p : Params) (t1 t2 : ℝ) : ℝ :=
  (p.rod2Length / p.rod1Length) * denominator1 p t1 t2

/-- The derivative function of the dynamics model
(src/components/Pendulum.tsx, lines 131-169). -/
noncomputable def calculateDerivatives (p : Params) (t1 t2 w1 w2 : ℝ) :
    Derivatives :=
  let g := p.gravity
  let m1 := p.rod1Mass
  let m2 := p.rod2Mass
  let L1 := p.rod1Length
  let L2 := p.rod2Length
  let c := Real.cos (t1 - t2)
  let s := Real.sin (t1 - t2)
  let alpha1 :=
    (m2 * L1 * w1 * w1 * s * c +
      m2 * g * Real.sin t2 * c +
      m2 * L2 * w2 * w2 * s -
      (m1 + m2) * g * Real.sin t1 +
      p.rod1MomentumBoost) / denominator1 p t1 t2
  let alpha2 :=
    (-m2 * L2 * w2 * w2 * s * c +
      (m1 + m2) * (g * Real.sin t1 * c - L1 * w1 * w1 * s - g * Real.sin t2)) /
      denominator2 p t1 t2
  ⟨w1, w2, alpha1, alpha2⟩

/-- The useFrame physics step (src/components/Pendulum.tsx, lines 281-326):
clamp the elapsed time, scale by the simulation speed, run the four RK4
stages, and combine them, leaving a skipped rod's components untouched. -/
noncomputable def frameStep (p : Params) (skipRod1Physics skipRod2Physics : Bool)
    (s : SimState) (delta : ℝ) : SimState :=
  let dt := min delta 0.016 * p.simulationSpeed
  let k1 := calculateDerivatives p s.theta1 s.theta2 s.omega1 s.omega2
  let k2 := calculateDerivatives p
    (s.theta1 + 0.5 * dt * k1.dTheta1)
    (s.theta2 + 0.5 * dt * k1.dTheta2)
    (s.omega1 + 0.5 * dt * k1.dOmega1)
    (s.omega2 + 0.5 * dt * k1.dOmega2)
  let k3 := calculateDerivatives p
    (s.theta1 + 0.5 * dt * k2.dTheta1)
    (s.theta2 + 0.5 * dt * k2.dTheta2)
    (s.omega1 + 0.5 * dt * k2.dOmega1)
    (s.omega2 + 0.5 * dt * k2.dOmega2)
  let k4 := calculateDerivatives p
    (s.theta1 + dt * k3.dTheta1)
    (s.theta2 + dt * k3.dTheta2)
    (s.omega1 + dt * k3.dOmega1)
    (s.omega2 + dt * k3.dOmega2)
  { theta1 := if skipRod1Physics then s.theta1 else
      s.theta1 + (dt / 6) * (k1.dTheta1 + 2 * k2.dTheta1 + 2 * k3.dTheta1 + k4.dTheta1)
    theta2 := if skipRod2Physics then s.theta2 else
      s.theta2 + (dt / 6) * (k1.dTheta2 + 2 * k2.dTheta2 + 2 * k3.dTheta2 + k4.dTheta2)
    omega1 := if skipRod1Physics then s.omega1 else
      s.omega1 + (dt / 6) * (k1.dOmega1 + 2 * k2.dOmega1 + 2 * k3.dOmega1 + k4.dOmega1)
    omega2 := if skipRod2Physics then s.omega2 else
      s.omega2 + (dt / 6) * (k1.dOmega2 + 2 * k2.dOmega2 + 2 * k3.dOmega2 + k4.dOmega2) }

/-- The two interaction modes of the scene (src/components/Pendulum.tsx,
line 8). -/
inductive Mode where
  | free
  | positionFix
deriving DecidableEq, BEq

/-- Which rod a pin refers to (src/components/Pendulum.tsx, line 82:
draggedRod is 1, 2 or null). -/
inductive Rod where
  | one
  | two
deriving DecidableEq, BEq

/-- The pointer-interaction state (src/components/Pendulum.tsx, lines 81-84):
mouseDownRef, isDragging and draggedRod. -/
structure InterState where
  mouseDown : Bool
  isDragging : Bool
  draggedRod : Option Rod

/-- The whole mutable state of the component: simulation state plus
interaction state. -/
structure World where
  sim : SimState
  inter : InterState

/-- basePivotX = apexX = 0 (src/components/Pendulum.tsx, lines 95, 122). -/
def basePivotX (_p : Params) : ℝ := 0

/-- basePivotY = apexY = baseHeight / 2 + supportHeight
(src/components/Pendulum.tsx, lines 87, 96, 123). -/
noncomputable def basePivotY (p : Params) : ℝ :=
  p.baseHeight / 2 + p.supportHeight

/-- JavaScript's Math.atan2(y, x): the angle of the point (x, y), in
(-pi, pi], with atan2(0, 0) = 0. -/
noncomputable def atan2 (y x : ℝ) : ℝ :=
  if 0 < x then Real.arctan (y / x)
  else if x < 0 then
    (if 0 ≤ y then Real.arctan (y / x) + Real.pi else Real.arctan (y / x) - Real.pi)
  else
    (if 0 < y then Real.pi / 2 else if y < 0 then -(Real.pi / 2) else 0)

/-- The mousedown handler (src/components/Pendulum.tsx, lines 178-204),
registered only in position-fix mode.  `button` is the mouse button of the
event; `hitRod1` and `hitRod2` say whether the pointer ray intersects the
respective rod mesh. -/
def handleMouseDown (mode : Mode) (button : ℕ) (hitRod1 hitRod2 : Bool)
    (w : World) : World :=
  if mode = Mode.positionFix then
    if button ≠ 0 then w
    else if hitRod1 then { w with inter := ⟨true, true, some Rod.one⟩ }
    else if hitRod2 then { w with inter := ⟨true, true, some Rod.two⟩ }
    else w
  else w

/-- The mousemove handler (src/components/Pendulum.tsx, lines 206-257),
registered only in position-fix mode.  `hit` is the result of
raycaster.ray.intersectPlane with the z = 0 plane: `none` when the ray
misses the plane, in which case the freshly constructed intersection vector
keeps its zero initial value, exactly as in the source.  The hover branch
only changes the cursor style, so it leaves the world unchanged here. -/
noncomputable def handleMouseMove (p : Params) (mode : Mode)
    (hit : Option (ℝ × ℝ)) (w : World) : World :=
  if mode = Mode.positionFix then
    if w.inter.mouseDown && w.inter.isDragging && w.inter.draggedRod.isSome then
      let intersection := hit.getD (0, 0)
      match w.inter.draggedRod with
      | some Rod.one =>
        let dx := intersection.1 - basePivotX p
        let dy := intersection.2 - basePivotY p
        let newAngle := atan2 dx (-dy)
        { w with sim := { w.sim with theta1 := newAngle, omega1 := 0 } }
      | some Rod.two =>
        let x1 := Real.sin w.sim.theta1
        let y1 := -Real.cos w.sim.theta1
        let attachmentDistance := p.rod2AttachmentPosition * p.rod1Length
        let rod2AttachmentX := basePivotX p + attachmentDistance * x1
        let rod2AttachmentY := basePivotY p + attachmentDistance * y1
        let dx := intersection.1 - rod2AttachmentX
        let dy := intersection.2 - rod2AttachmentY
        let absoluteAngle := atan2 dx (-dy)
        let relativeAngle := absoluteAngle - w.sim.theta1
        { w with sim := { w.sim with theta2 := relativeAngle, omega2 := 0 } }
      | none => w
    else w
  else w

/-- The mouseup and mouseleave handler (src/components/Pendulum.tsx,
lines 259-264), registered only in position-fix mode: it clears the pin. -/
def handleMouseUp (mode : Mode) (w : World) : World :=
  if mode = Mode.positionFix then { w with inter := ⟨false, false, none⟩ }
  else w

/-- skipRod1Physics (src/components/Pendulum.tsx, line 283). -/
def skipRod1 (mode : Mode) (w : World) : Bool :=
  mode == Mode.positionFix && w.inter.isDragging && w.inter.draggedRod == some Rod.one

/-- skipRod2Physics (src/components/Pendulum.tsx, line 284). -/
def skipRod2 (mode : Mode) (w : World) : Bool :=
  mode == Mode.positionFix && w.inter.isDragging && w.inter.draggedRod == some Rod.two

/-- One invocation of the useFrame callback with elapsed time `delta`
(src/components/Pendulum.tsx, lines 281-326): the physics step applied to
the simulation state, the interaction state untouched. -/
noncomputable def frameEvent (p : Params) (mode : Mode) (delta : ℝ)
    (w : World) : World :=
  { w with sim := frameStep p (skipRod1 mode w) (skipRod2 mode w) w.sim delta }

/-- The Reset button action (src/components/Pendulum.tsx, lines 56-63). -/
noncomputable def resetState (p : Params) : SimState :=
  ⟨p.initialTheta1Deg * Real.pi / 180, p.initialTheta2Deg * Real.pi / 180,
    p.initialOmega1, 0⟩

/-- Triggering Reset replaces the simulation state and leaves the
interaction state alone (src/components/Pendulum.tsx, lines 56-63). -/
noncomputable def applyReset (p : Params) (w : World) : World :=
  { w with sim := resetState p }

/-- The external events the component reacts to. -/
inductive Event where
  | mouseDown (button : ℕ) (hitRod1 hitRod2 : Bool)
  | mouseMove (hit : Option (ℝ × ℝ))
  | mouseUp
  | mouseLeave
  | frame (delta : ℝ)

/-- Dispatch one event to its handler. -/
noncomputable def processEvent (p : Params) (mode : Mode) (w : World) :
    Event → World
  | Event.mouseDown b h1 h2 => handleMouseDown mode b h1 h2 w
  | Event.mouseMove hit => handleMouseMove p mode hit w
  | Event.mouseUp => handleMouseUp mode w
  | Event.mouseLeave => handleMouseUp mode w
  | Event.frame d => frameEvent p mode d w

/-- Process a list of events in order. -/
noncomputable def processTrace (p : Params) (mode : Mode) :
    World → List Event → World
  | w, [] => w
  | w, e :: es => processTrace p mode (processEvent p mode w e) es

/-- An event that neither begins nor releases a pin: a pointer-move or a
frame tick. -/
def keepsPin : Event → Bool
  | Event.mouseDown _ _ _ => false
  | Event.mouseUp => false
  | Event.mouseLeave => false
  | _ => true

/-- How many links an interaction pin value pins. -/
def pinnedCount : Option Rod → ℕ
  | none => 0
  | some _ => 1

/-- Componentwise sum of state vectors (for the specification-side RK4). -/
def SimState.add (a b : SimState) : SimState :=
  ⟨a.theta1 + b.theta1, a.theta2 + b.theta2, a.omega1 + b.omega1,
    a.omega2 + b.omega2⟩

/-- Componentwise scaling of a state vector (for the specification-side
RK4). -/
def SimState.smul (r : ℝ) (a : SimState) : SimState :=
  ⟨r * a.theta1, r * a.theta2, r * a.omega1, r * a.omega2⟩

/-- The dynamics model as a vector field on the state space: the
derivative record arranged as a state vector. -/
noncomputable def derivVec (p : Params) (s : SimState) : SimState :=
  let d := calculateDerivatives p s.theta1 s.theta2 s.omega1 s.omega2
  ⟨d.dTheta1, d.dTheta2, d.dOmega1, d.dOmega2⟩

/-- Modelled from the specification's words (section 4.2): one classical
4th-order Runge-Kutta step for the vector field F, evaluating F at
(state), (state + dt/2 k1), (state + dt/2 k2), (state + dt k3) and
combining with weights 1, 2, 2, 1 scaled by dt/6.  Stated independently of
the source so that the frame step can be compared against it. -/
noncomputable def rk4Classical (F : SimState → SimState) (y : SimState)
    (dt : ℝ) : SimState :=
  let k1 := F y
  let k2 := F (y.add (SimState.smul (dt / 2) k1))
  let k3 := F (y.add (SimState.smul (dt / 2) k2))
  let k4 := F (y.add (SimState.smul dt k3))
  y.add (SimState.smul (dt / 6)
    (k1.add ((SimState.smul 2 k2).add ((SimState.smul 2 k3).add k4))))

/-- The default control values of the source's sliders
(src/components/Pendulum.tsx, lines 37-55). -/
noncomputable def defaultParams : Params :=
  { gravity := 1
    rod1Mass := 5
    rod2Mass := 5
    rod1Length := 1.9
    rod2Length := 1.3
    rod1MomentumBoost := 1
    simulationSpeed := 1
    initialTheta1Deg := 5.73
    initialTheta2Deg := 90
    initialOmega1 := 1
    rod2AttachmentPosition := 0.03
    baseHeight := 0.3
    supportHeight := 1.5 }

/-- Unit parameters, a concrete instance with positive masses and
lengths. -/
noncomputable def unitParams : Params :=
  { gravity := 1
    rod1Mass := 1
    rod2Mass := 1
    rod1Length := 1
    rod2Length := 1
    rod1MomentumBoost := 0
    simulationSpeed := 1
    initialTheta1Deg := 0
    initialTheta2Deg := 0
    initialOmega1 := 0
    rod2AttachmentPosition := 0
    baseHeight := 0.3
    supportHeight := 1.5 }

/-- A concrete world: rod 1 currently pinned by a drag, with nonzero
angles and angular velocities. -/
noncomputable def wDrag1 : World :=
  ⟨⟨1, 0.5, 2, 3⟩, ⟨true, true, some Rod.one⟩⟩

/-- A concrete world: no pin active, rod 1 moving with omega1 = 1. -/
noncomputable def wFree : World :=
  ⟨⟨0.1, 0, 1, 0⟩, ⟨false, false, none⟩⟩

/-- With rod 1 physics skipped, theta1 comes out unchanged. -/
theorem frameStep_skip1_theta1 (p : Params) (sk2 : Bool) (s : SimState)
    (delta : ℝ) : (frameStep p true sk2 s delta).theta1 = s.theta1 := rfl

/-- With rod 1 physics skipped, omega1 comes out unchanged. -/
theorem frameStep_skip1_omega1 (p : Params) (sk2 : Bool) (s : SimState)
    (delta : ℝ) : (frameStep p true sk2 s delta).omega1 = s.omega1 := rfl

/-- With elapsed time 0 the effective step dt is 0, so the combination adds
nothing and every component keeps its prior value. -/
theorem frameStep_zero_delta (p : Params) (sk1 sk2 : Bool) (s : SimState) :
    frameStep p sk1 sk2 s 0 = s := by
  have hdt : min (0:ℝ) 0.016 * p.simulationSpeed = 0 := by norm_num
  ext <;> simp [frameStep, hdt]

/-- Processing a concatenation of traces processes them in sequence. -/
theorem processTrace_append (p : Params) (m : Mode) (w : World)
    (es fs : List Event) :
    processTrace p m w (es ++ fs) = processTrace p m (processTrace p m w es) fs := by
  induction es generalizing w with
  | nil => rfl
  | cons e es ih => simp only [List.cons_append, processTrace]; exact ih _

/-- A pointer-move or frame event processed while rod 1 is pinned keeps the
pin and keeps omega1 = 0. -/
theorem pinnedOne_step (p : Params) (e : Event) (he : keepsPin e = true)
    (w : World) (hw : w.inter = ⟨true, true, some Rod.one⟩)
    (h0 : w.sim.omega1 = 0) :
    (processEvent p Mode.positionFix w e).inter = ⟨true, true, some Rod.one⟩ ∧
    (processEvent p Mode.positionFix w e).sim.omega1 = 0 := by
  cases e with
  | mouseDown b h1 h2 => simp [keepsPin] at he
  | mouseUp => simp [keepsPin] at he
  | mouseLeave => simp [keepsPin] at he
  | mouseMove hit =>
    constructor <;> simp [processEvent, handleMouseMove, hw]
  | frame d =>
    have hs1 : skipRod1 Mode.positionFix w = true := by
      simp [skipRod1, hw]
      exact ⟨rfl, rfl⟩
    constructor
    · simpa [processEvent, frameEvent] using hw
    · show (frameStep p (skipRod1 Mode.positionFix w) (skipRod2 Mode.positionFix w)
          w.sim d).omega1 = 0
      rw [hs1, frameStep_skip1_omega1, h0]

/-- Along any trace of pointer-moves and frame events, a pin of rod 1 with
omega1 = 0 is preserved. -/
theorem pinnedOne_trace (p : Params) (es : List Event)
    (hes : es.all keepsPin = true) (w : World)
    (hw : w.inter = ⟨true, true, some Rod.one⟩) (h0 : w.sim.omega1 = 0) :
    (processTrace p Mode.positionFix w es).inter = ⟨true, true, some Rod.one⟩ ∧
    (processTrace p Mode.positionFix w es).sim.omega1 = 0 := by
  induction es generalizing w with
  | nil => exact ⟨hw, h0⟩
  | cons e es ih =>
    simp only [List.all_cons, Bool.and_eq_true] at hes
    have h := pinnedOne_step p e hes.1 w hw h0
    simpa [processTrace] using ih hes.2 _ h.1 h.2

/-- Claim C5: for every prior trajectory and configured initial values,
triggering reset sets the state exactly to (theta1Init deg to radians,
theta2Init deg to radians, omega1Init, 0); omega2 becomes exactly zero
regardless of its previous value, and the result is independent of the
prior world. -/
theorem C5_reset_sets_configured_initial_state (p : Params) (w v : World) :
    (applyReset p w).sim =
      ⟨p.initialTheta1Deg * Real.pi / 180, p.initialTheta2Deg * Real.pi / 180,
        p.initialOmega1, 0⟩ ∧
    (applyReset p w).sim = (applyReset p v).sim ∧
    (applyReset p w).sim.omega2 = 0 :=
  ⟨rfl, rfl, rfl⟩

/-- Claim C6: for all parameters, any skip flags and any initial state,
calling the frame step with elapsed time 0 any number of times leaves
theta1, theta2, omega1 and omega2 unchanged. -/
theorem C6_zero_dt_iterated_identity (p : Params) (sk1 sk2 : Bool)
    (s : SimState) (n : ℕ) :
    (fun t => frameStep p sk1 sk2 t 0)^[n] s = s :=
  Function.iterate_fixed (frameStep_zero_delta p sk1 sk2 s) n

/-- Claim C7: the derivative function returns dTheta1 = omega1 and
dTheta2 = omega2, the momentum-boost constant enters dOmega1 only as the
additive term boost / denominator1 coming from the numerator, and dOmega2
does not depend on the boost at all. -/
theorem C7_boost_only_in_alpha1_numerator (p : Params) (b t1 t2 w1 w2 : ℝ) :
    (calculateDerivatives { p with rod1MomentumBoost := b } t1 t2 w1 w2).dTheta1 = w1 ∧
    (calculateDerivatives { p with rod1MomentumBoost := b } t1 t2 w1 w2).dTheta2 = w2 ∧
    (calculateDerivatives { p with rod1MomentumBoost := b } t1 t2 w1 w2).dOmega1 =
      (calculateDerivatives { p with rod1MomentumBoost := 0 } t1 t2 w1 w2).dOmega1 +
        b / denominator1 p t1 t2 ∧
    (calculateDerivatives { p with rod1MomentumBoost := b } t1 t2 w1 w2).dOmega2 =
      (calculateDerivatives { p with rod1MomentumBoost := 0 } t1 t2 w1 w2).dOmega2 := by
  refine ⟨rfl, rfl, ?_, rfl⟩
  simp only [calculateDerivatives, denominator1]
  ring

/-- Claim C10: for positive masses and lengths, denominator1 equals
L1 * (m1 + m2 * sin^2(theta1 - theta2)), is at least m1 * L1 and hence
positive, and denominator2 = (L2 / L1) * denominator1 is at least m1 * L2
and hence positive: both divisions in calculateDerivatives are bounded away
from the degenerate case. -/
theorem C10_denominators_bounded_below (p : Params) (t1 t2 : ℝ)
    (hm1 : 0 < p.rod1Mass) (hm2 : 0 < p.rod2Mass)
    (hL1 : 0 < p.rod1Length) (hL2 : 0 < p.rod2Length) :
    denominator1 p t1 t2 =
      p.rod1Length * (p.rod1Mass + p.rod2Mass * Real.sin (t1 - t2) ^ 2) ∧
    p.rod1Mass * p.rod1Length ≤ denominator1 p t1 t2 ∧
    0 < denominator1 p t1 t2 ∧
    denominator2 p t1 t2 = (p.rod2Length / p.rod1Length) * denominator1 p t1 t2 ∧
    p.rod1Mass * p.rod2Length ≤ denominator2 p t1 t2 ∧
    0 < denominator2 p t1 t2 := by
  have hsc := Real.sin_sq_add_cos_sq (t1 - t2)
  have h1 : denominator1 p t1 t2 =
      p.rod1Length * (p.rod1Mass + p.rod2Mass * Real.sin (t1 - t2) ^ 2) := by
    simp only [denominator1]
    linear_combination (-(p.rod2Mass * p.rod1Length)) * hsc
  have hX : p.rod1Mass ≤ p.rod1Mass + p.rod2Mass * Real.sin (t1 - t2) ^ 2 := by
    nlinarith [sq_nonneg (Real.sin (t1 - t2))]
  have hge1 : p.rod1Mass * p.rod1Length ≤ denominator1 p t1 t2 := by
    rw [h1]; nlinarith [hX, hL1]
  have hpos1 : 0 < denominator1 p t1 t2 :=
    lt_of_lt_of_le (mul_pos hm1 hL1) hge1
  have h2 : denominator2 p t1 t2 =
      (p.rod2Length / p.rod1Length) * denominator1 p t1 t2 := rfl
  have hge2 : p.rod1Mass * p.rod2Length ≤ denominator2 p t1 t2 := by
    rw [h2, h1]
    have hrw : p.rod2Length / p.rod1Length *
        (p.rod1Length * (p.rod1Mass + p.rod2Mass * Real.sin (t1 - t2) ^ 2)) =
        p.rod2Length * (p.rod1Mass + p.rod2Mass * Real.sin (t1 - t2) ^ 2) := by
      field_simp
      ring
    rw [hrw]
    nlinarith [hX, hL2]
  have hpos2 : 0 < denominator2 p t1 t2 := by
    rw [h2]; exact mul_pos (div_pos hL2 hL1) hpos1
  exact ⟨h1, hge1, hpos1, h2, hge2, hpos2⟩

set_option maxHeartbeats 1600000 in
/-- With both skip flags clear, the frame step agrees with the classical
RK4 combination of the dynamics vector field. -/
theorem frameStep_unpinned_rk4 (p : Params) (s : SimState) (dtRaw : ℝ) :
    frameStep p false false s dtRaw =
      rk4Classical (derivVec p) s (min dtRaw 0.016 * p.simulationSpeed) := by
  have hhalf : ∀ a x : ℝ,
      a + 0.5 * (min dtRaw 0.016 * p.simulationSpeed) * x =
      a + min dtRaw 0.016 * p.simulationSpeed / 2 * x := by
    intro a x; ring
  simp only [frameStep, rk4Classical, derivVec, SimState.add, SimState.smul,
    Bool.false_eq_true, if_false]
  simp only [hhalf]
  ext <;> ring

/-- Claim C2: with no link pinned, the frame step is exactly the classical
RK4 update of the dynamics vector field with effective step
dt = min(dtRaw, 0.016) * simulationSpeed: the derivative is evaluated at
state, state + dt/2 k1, state + dt/2 k2 and state + dt k3 and combined
with weights 1, 2, 2, 1 scaled by dt/6. -/
theorem C2_frameStep_is_classical_rk4 (p : Params) (s : SimState) (md : Bool)
    (mode : Mode) (dtRaw : ℝ) :
    frameStep p false false s dtRaw =
      rk4Classical (derivVec p) s (min dtRaw 0.016 * p.simulationSpeed) ∧
    (frameEvent p mode dtRaw ⟨s, ⟨md, false, none⟩⟩).sim =
      rk4Classical (derivVec p) s (min dtRaw 0.016 * p.simulationSpeed) := by
  have h := frameStep_unpinned_rk4 p s dtRaw
  refine ⟨h, ?_⟩
  have hsk1 : skipRod1 mode ⟨s, ⟨md, false, none⟩⟩ = false := by simp [skipRod1]
  have hsk2 : skipRod2 mode ⟨s, ⟨md, false, none⟩⟩ = false := by simp [skipRod2]
  show frameStep p (skipRod1 mode ⟨s, ⟨md, false, none⟩⟩)
      (skipRod2 mode ⟨s, ⟨md, false, none⟩⟩) s dtRaw = _
  rw [hsk1, hsk2]
  exact h

/-- Claim C3: a frame step taken while one link is pinned leaves that
link's theta and omega exactly as they were, while the other link's theta
and omega equal the components of the full unconstrained RK4 update
computed from the complete coupled state: the pin is applied only to the
final combination, never injected into the RK4 substeps. -/
theorem C3_pinned_link_frozen_other_link_full_rk4 (p : Params) (s : SimState)
    (md : Bool) (dtRaw : ℝ) :
    (frameEvent p Mode.positionFix dtRaw ⟨s, ⟨md, true, some Rod.one⟩⟩).sim =
      ⟨s.theta1, (frameStep p false false s dtRaw).theta2, s.omega1,
        (frameStep p false false s dtRaw).omega2⟩ ∧
    (frameEvent p Mode.positionFix dtRaw ⟨s, ⟨md, true, some Rod.two⟩⟩).sim =
      ⟨(frameStep p false false s dtRaw).theta1, s.theta2,
        (frameStep p false false s dtRaw).omega1, s.omega2⟩ :=
  ⟨rfl, rfl⟩

/-- Counterexample to claim C4 as stated: a pointer-down on rod 1 pins it,
but with no pointer-move the link's angular velocity keeps its pre-pin
value 1, also at the moment of release, not zero. -/
theorem C4_counterexample_down_without_move :
    (processTrace defaultParams Mode.positionFix wFree
        [Event.mouseDown 0 true false]).inter.draggedRod = some Rod.one ∧
    (processTrace defaultParams Mode.positionFix wFree
        [Event.mouseDown 0 true false]).sim.omega1 = 1 ∧
    (processTrace defaultParams Mode.positionFix wFree
        [Event.mouseDown 0 true false, Event.mouseUp]).sim.omega1 = 1 ∧
    (1 : ℝ) ≠ 0 :=
  ⟨rfl, rfl, rfl, one_ne_zero⟩

/-- Claim C4 as amended: once a pointer-move is processed while rod 1 is
pinned, omega1 is zero, and it stays zero through any further pointer-moves
and frame steps of the drag, including exactly at the moment of release;
before the first pointer-move the pinned link keeps its pre-pin angular
velocity. -/
theorem C4_amended_omega_zero_after_first_move (p : Params) (w : World)
    (hit : Option (ℝ × ℝ)) (es : List Event)
    (hw : w.inter = ⟨true, true, some Rod.one⟩)
    (hes : es.all keepsPin = true) :
    (handleMouseMove p Mode.positionFix hit w).sim.omega1 = 0 ∧
    (processTrace p Mode.positionFix (handleMouseMove p Mode.positionFix hit w)
        (es ++ [Event.mouseUp])).sim.omega1 = 0 := by
  have h1 : (handleMouseMove p Mode.positionFix hit w).inter =
      ⟨true, true, some Rod.one⟩ := by
    simp [handleMouseMove, hw]
  have h0 : (handleMouseMove p Mode.positionFix hit w).sim.omega1 = 0 := by
    simp [handleMouseMove, hw]
  refine ⟨h0, ?_⟩
  rw [processTrace_append]
  have h := pinnedOne_trace p es hes _ h1 h0
  simp [processTrace, processEvent, handleMouseUp, h.2]

/-- Witness for the amended claim C4: a concrete pinned world, a missed
pointer-move, then a frame tick, a pointer-move and the release. -/
theorem C4_witness :
    wDrag1.inter = ⟨true, true, some Rod.one⟩ ∧
    ([Event.frame 0.016, Event.mouseMove (some (1, 1))].all keepsPin = true) ∧
    ((handleMouseMove defaultParams Mode.positionFix none wDrag1).sim.omega1 = 0 ∧
      (processTrace defaultParams Mode.positionFix
          (handleMouseMove defaultParams Mode.positionFix none wDrag1)
          ([Event.frame 0.016, Event.mouseMove (some (1, 1))] ++
            [Event.mouseUp])).sim.omega1 = 0) :=
  ⟨rfl, rfl, C4_amended_omega_zero_after_first_move defaultParams wDrag1 none
    [Event.frame 0.016, Event.mouseMove (some (1, 1))] rfl rfl⟩

/-- Counterexample to claim C8 as stated: with rod 1 pinned, a pointer-down
whose ray hits only rod 2 is not ignored: it re-pins to rod 2. -/
theorem C8_counterexample_second_down_repins :
    (handleMouseDown Mode.positionFix 0 false true wDrag1).inter.draggedRod =
      some Rod.two ∧
    some Rod.two ≠ some Rod.one :=
  ⟨rfl, by decide⟩

/-- Claim C8 as amended: at most one link is pinned at any time (the pin is
a single optional value), but a pointer-down hitting only the second link
while the first is pinned transfers the pin to the second link (last pin
wins); a pointer-down hitting neither link leaves the interaction state
unchanged. -/
theorem C8_amended_last_pin_wins (si : SimState) (md idr : Bool)
    (mode : Mode) (b : ℕ) (g1 g2 : Bool) (v : World) :
    (handleMouseDown Mode.positionFix 0 false true
        ⟨si, ⟨md, idr, some Rod.one⟩⟩).inter.draggedRod = some Rod.two ∧
    (handleMouseDown Mode.positionFix 0 false false
        ⟨si, ⟨md, idr, some Rod.one⟩⟩).inter = ⟨md, idr, some Rod.one⟩ ∧
    pinnedCount (handleMouseDown mode b g1 g2 v).inter.draggedRod ≤ 1 := by
  refine ⟨rfl, rfl, ?_⟩
  cases h : (handleMouseDown mode b g1 g2 v).inter.draggedRod <;>
    simp [pinnedCount]

/-- Claim C9's failing input evaluated: a pointer-move with no ray-plane
intersection, received while rod 1 is pinned, is not ignored: the
intersection vector keeps its zero initial value, so the handler sets
theta1 = atan2(0 - 0, -(0 - basePivotY)) = 0 and omega1 = 0, changing the
state from theta1 = 1, omega1 = 2. -/
theorem C9_missed_intersection_changes_state :
    (handleMouseMove defaultParams Mode.positionFix none wDrag1).sim.theta1 = 0 ∧
    (handleMouseMove defaultParams Mode.positionFix none wDrag1).sim.omega1 = 0 ∧
    wDrag1.sim.theta1 = 1 ∧ wDrag1.sim.omega1 = 2 ∧
    (1 : ℝ) ≠ 0 ∧ (2 : ℝ) ≠ 0 := by
  refine ⟨?_, ?_, rfl, rfl, one_ne_zero, two_ne_zero⟩
  · norm_num [handleMouseMove, wDrag1, atan2, basePivotX, basePivotY,
      defaultParams, Real.arctan_zero]
  · simp [handleMouseMove, wDrag1]

/-- Witness for claim C10 at unit masses and lengths and
theta1 = theta2 = 0. -/
theorem C10_witness :
    0 < unitParams.rod1Mass ∧ 0 < unitParams.rod2Mass ∧
    0 < unitParams.rod1Length ∧ 0 < unitParams.rod2Length ∧
    0 < denominator1 unitParams 0 0 ∧ 0 < denominator2 unitParams 0 0 := by
  have h := C10_denominators_bounded_below unitParams 0 0
    (by norm_num [unitParams]) (by norm_num [unitParams])
    (by norm_num [unitParams]) (by norm_num [unitParams])
  exact ⟨by norm_num [unitParams], by norm_num [unitParams],
    by norm_num [unitParams], by norm_num [unitParams],
    h.2.2.1, h.2.2.2.2.2⟩

end ChaoticPendulum
